import Mathlib

/-!
# Verification of the GamePigeon results analyzer

Shallow embedding of the transcript parser, reporter and plot-data
computation of the GamePigeon results analyzer, together with theorems
settling the specification claims.

The embedding follows the source:

* the timestamp regular expressions are embedded as deterministic
  character-list matchers (the patterns are unambiguous, so the
  backtracking of the regex engine reduces to a bounded lookahead,
  implemented in the digit-parsing helper);
* strptime with the two formats used by the source is embedded as
  component validation plus date-time construction (a ValueError from
  either stage is observationally the same: the fallback format is
  tried, then the timestamp is recorded as absent);
* character classes model the ASCII fragment of the Python classes,
  which suffices for every literal the program compares against.
-/

/-- Game outcome from the perspective of the self identity. -/
inductive Outcome
  | win
  | loss
  | draw
deriving DecidableEq

/-- A parsed date-time (what datetime.strptime produces). -/
structure DateTime where
  year : Nat
  month : Nat
  day : Nat
  hour : Nat
  minute : Nat
  second : Nat
deriving DecidableEq

/-- Linearisation of a date-time used for comparison.  On every value
produced by the embedded strptime the components are within their
calendar bounds, so this key is strictly monotone in the lexicographic
component order, i.e. it orders exactly like Python datetime. -/
def DateTime.key (d : DateTime) : Nat :=
  ((((d.year * 13 + d.month) * 32 + d.day) * 24 + d.hour) * 60 + d.minute) * 60 + d.second

/-- Comparison used to sort timestamped results (Python sorts the pairs
by their datetime component). -/
def tsLe (p q : DateTime × Outcome) : Prop := p.1.key ≤ q.1.key

instance : DecidableRel tsLe := fun p q => Nat.decLe p.1.key q.1.key

instance : IsTotal (DateTime × Outcome) tsLe := ⟨fun a b => Nat.le_total a.1.key b.1.key⟩

instance : IsTrans (DateTime × Outcome) tsLe := ⟨fun _ _ _ h h2 => Nat.le_trans h h2⟩

/-- ASCII fragment of the regex class backslash-w (word character). -/
def isWordChar (c : Char) : Bool := c.isAlpha || c.isDigit || c = '_'

/-- ASCII fragment of the regex class backslash-s and of the whitespace
stripped by str.strip. -/
def isPySpace (c : Char) : Bool :=
  c = ' ' || c = '\t' || c = '\n' || c = '\x0b' || c = '\x0c' || c = '\r'

/-- Numeric value of a decimal digit character. -/
def digitVal (c : Char) : Nat := c.toNat - 48

/-- Match one or two decimal digits greedily, followed by the literal
separator; return the numeric value and the input after the separator.
This is the deterministic residue of the regex piece d{1,2} followed by
a literal, under which two digits are preferred and the engine
backtracks to one digit when the separator does not follow. -/
def parse12Sep (sep : Char) : List Char → Option (Nat × List Char)
  | d1 :: d2 :: c :: rest =>
      if d1.isDigit && d2.isDigit && c = sep then
        some (digitVal d1 * 10 + digitVal d2, rest)
      else if d1.isDigit && d2 = sep then
        some (digitVal d1, c :: rest)
      else none
  | [d1, d2] =>
      if d1.isDigit && d2 = sep then some (digitVal d1, []) else none
  | _ => none

/-- The capture groups of the timestamp regular expressions: the
three-character leading token, the numeric date and time fields and the
AM/PM flag.  These determine both group strings up to the exact
whitespace used, which strptime treats interchangeably. -/
structure TsGroups where
  tok : String
  day : Nat
  year : Nat
  hour : Nat
  minute : Nat
  second : Nat
  isPM : Bool
deriving DecidableEq

/-- Generic matcher for the two timestamp regexes of the source, which
differ only in the separator between date and time.  Anchored at the
start of the line (re.match); trailing input after the match is
ignored, as re.match does not anchor the end.  Parameters: the check on
the three leading characters, the single-whitespace class, and the
date/time separator. -/
def genTs (tokCheck : Char → Char → Char → Bool) (sp : Char → Bool)
    (sep : List Char → Option (List Char)) : List Char → Option TsGroups
  | a :: b :: c :: s1 :: rest =>
    if tokCheck a b c && sp s1 then
      match parse12Sep ',' rest with
      | some (day, rest1) =>
        match rest1 with
        | s2 :: y1 :: y2 :: y3 :: y4 :: rest2 =>
          if sp s2 && y1.isDigit && y2.isDigit && y3.isDigit && y4.isDigit then
            match sep rest2 with
            | some rest3 =>
              match parse12Sep ':' rest3 with
              | some (hour, rest4) =>
                match rest4 with
                | m1 :: m2 :: c2 :: x1 :: x2 :: s3 :: ap :: em :: _ =>
                  if m1.isDigit && m2.isDigit && c2 = ':' && x1.isDigit && x2.isDigit &&
                      sp s3 && (ap = 'A' || ap = 'P') && em = 'M' then
                    some { tok := String.mk [a, b, c], day := day,
                           year := ((digitVal y1 * 10 + digitVal y2) * 10 + digitVal y3) * 10
                                     + digitVal y4,
                           hour := hour,
                           minute := digitVal m1 * 10 + digitVal m2,
                           second := digitVal x1 * 10 + digitVal x2,
                           isPM := ap = 'P' }
                  else none
                | _ => none
              | none => none
            | none => none
          else none
        | _ => none
      | none => none
    else none
  | _ => none

/-- Token check of the source regexes: three word characters. -/
def codeTok (a b c : Char) : Bool := isWordChar a && isWordChar b && isWordChar c

/-- Separator of the first source regex: one-or-more whitespace
(greedy; the following regex piece starts with a digit, so the greedy
run is exactly the maximal whitespace run). -/
def sepPlus : List Char → Option (List Char)
  | c :: rest => if isPySpace c then some (rest.dropWhile isPySpace) else none
  | [] => none

/-- Separator of the second source regex: exactly two whitespace
characters. -/
def sepTwo : List Char → Option (List Char)
  | c1 :: c2 :: rest => if isPySpace c1 && isPySpace c2 then some rest else none
  | _ => none

/-- First timestamp regex of the source. -/
def matchTs1 (s : String) : Option TsGroups := genTs codeTok isPySpace sepPlus s.data

/-- Second timestamp regex of the source (tried when the first fails). -/
def matchTs2 (s : String) : Option TsGroups := genTs codeTok isPySpace sepTwo s.data

/-- The timestamp match of the loop body: the first regex, and on
failure the second. -/
def tsGroups (s : String) : Option TsGroups :=
  match matchTs1 s with
  | some g => some g
  | none => matchTs2 s

/-- Whether the loop treats the (stripped) line as a timestamp line. -/
def isTimestampLine (s : String) : Bool := (tsGroups s).isSome

/-- Month abbreviations recognised by strptime directive percent-b in
the C locale (lower-cased: the strptime regex is case-insensitive). -/
def monthOfTok (tok : String) : Option Nat :=
  match String.mk (tok.data.map Char.toLower) with
  | "jan" => some 1
  | "feb" => some 2
  | "mar" => some 3
  | "apr" => some 4
  | "may" => some 5
  | "jun" => some 6
  | "jul" => some 7
  | "aug" => some 8
  | "sep" => some 9
  | "oct" => some 10
  | "nov" => some 11
  | "dec" => some 12
  | _ => none

/-- Weekday abbreviations recognised by strptime directive percent-a in
the C locale (lower-cased).  With the weekday-first format the month is
left at its default, January; strptime does not check the weekday name
against the computed date. -/
def isWeekdayTok (tok : String) : Bool :=
  match String.mk (tok.data.map Char.toLower) with
  | "mon" => true
  | "tue" => true
  | "wed" => true
  | "thu" => true
  | "fri" => true
  | "sat" => true
  | "sun" => true
  | _ => false

/-- Gregorian leap year rule (Python datetime). -/
def isLeapYear (y : Nat) : Bool := (y % 4 = 0 && y % 100 ≠ 0) || y % 400 = 0

/-- Days in a month (Python datetime). -/
def daysInMonth (y m : Nat) : Nat :=
  if m = 2 then (if isLeapYear y then 29 else 28)
  else if m = 4 || m = 6 || m = 9 || m = 11 then 30
  else 31

/-- Validation and construction shared by both strptime calls: the
directive ranges (day 1..31, hour 1..12 for percent-I, minute and
second two digits at most 59 — a regex-accepted leap second 60 or 61 is
rejected by the datetime constructor, which is the same ValueError) and
the datetime constructor checks (year at least 1, day within the
month); the 12-hour clock is folded with AM/PM into a 24-hour field. -/
def mkDatetime (y m d h mi s : Nat) (pm : Bool) : Option DateTime :=
  if 1 ≤ y ∧ 1 ≤ d ∧ d ≤ daysInMonth y m ∧ 1 ≤ h ∧ h ≤ 12 ∧ mi ≤ 59 ∧ s ≤ 59 then
    some { year := y, month := m, day := d,
           hour := if pm then (if h = 12 then 12 else h + 12)
                   else (if h = 12 then 0 else h),
           minute := mi, second := s }
  else none

/-- The two strptime attempts of the source: month-name-first, then on
ValueError weekday-name-first (month defaulting to January), then
absent.  The month and weekday abbreviation sets are disjoint, so the
fallback can only succeed when the token is a weekday name. -/
def strptimeBoth (g : TsGroups) : Option DateTime :=
  match monthOfTok g.tok with
  | some m => mkDatetime g.year m g.day g.hour g.minute g.second g.isPM
  | none =>
    if isWeekdayTok g.tok then mkDatetime g.year 1 g.day g.hour g.minute g.second g.isPM
    else none

/-- Python str.strip (ASCII fragment): remove leading and trailing
whitespace. -/
def pyStrip (s : String) : String :=
  String.mk (((s.data.dropWhile isPySpace).reverse.dropWhile isPySpace).reverse)

/-- The stripped line at index i of the materialised line list (out of
range never occurs in the loop, which iterates over valid indices). -/
def lineAt (L : List String) (i : Nat) : String := pyStrip (L.getD i "")

example : isTimestampLine "Jan 1, 2024 10:00:00 AM" = true := by decide

example : tsGroups "Jan 1, 2024 10:00:00 AM" =
    some { tok := "Jan", day := 1, year := 2024, hour := 10, minute := 0, second := 0,
           isPM := false } := by decide

example : isTimestampLine "I won!" = false := by decide

example : isTimestampLine "Jan 1, 2024   10:00:00 AM" = true := by decide

example : isTimestampLine "123 1, 2024 1:00:00 AM" = true := by decide

/-- The scan state of parse_gamepigeon_results: the three counters, the
appended timestamped results (in append order; sorted at the end), and
the cross-line variables current_sender, gamepigeon_flag (the
awaiting-result flag) and current_timestamp. -/
structure ParseState where
  wins : Nat
  losses : Nat
  draws : Nat
  timestamped : List (DateTime × Outcome)
  currentSender : Option String
  gamepigeonFlag : Bool
  currentTimestamp : Option DateTime
deriving DecidableEq

/-- Initial scan state. -/
def initState : ParseState :=
  { wins := 0, losses := 0, draws := 0, timestamped := [],
    currentSender := none, gamepigeonFlag := false, currentTimestamp := none }

/-- The conditional append to timestamped_results: one entry when the
current timestamp is present (datetime values are always truthy in
Python, so the source's truthiness test is a None test), none
otherwise. -/
def tsEntry (t : Option DateTime) (o : Outcome) : List (DateTime × Outcome) :=
  match t with
  | some ts => [(ts, o)]
  | none => []

/-- The timestamp block of the loop body: on a regex match, and only
when index i+1 is in range, parse the timestamp (absent on failure of
both formats), take the stripped next line as the sender, and clear the
awaiting-result flag. -/
def tsUpdate (L : List String) (i : Nat) (st : ParseState) : ParseState :=
  match tsGroups (lineAt L i) with
  | some g =>
      if i + 1 < L.length then
        { st with currentTimestamp := strptimeBoth g,
                  currentSender := some (lineAt L (i + 1)),
                  gamepigeonFlag := false }
      else st
  | none => st

/-- One iteration of the scan loop of parse_gamepigeon_results for line
index i: the timestamp block, then the GamePigeon-marker check (which
continues to the next line), then the result-marker processing guarded
by the awaiting-result flag and i greater than 0. -/
def processLine (L : List String) (i : Nat) (st : ParseState) : ParseState :=
  let st1 := tsUpdate L i st
  if lineAt L i = "GamePigeon message:" then { st1 with gamepigeonFlag := true }
  else if st1.gamepigeonFlag && decide (0 < i) then
    if lineAt L i = "I won!" then
      if st1.currentSender = some "Me" then
        { st1 with wins := st1.wins + 1,
                   timestamped := st1.timestamped ++ tsEntry st1.currentTimestamp Outcome.win,
                   gamepigeonFlag := false }
      else
        { st1 with losses := st1.losses + 1,
                   timestamped := st1.timestamped ++ tsEntry st1.currentTimestamp Outcome.loss,
                   gamepigeonFlag := false }
    else if lineAt L i = "You Won!" then
      if st1.currentSender = some "Me" then
        { st1 with losses := st1.losses + 1,
                   timestamped := st1.timestamped ++ tsEntry st1.currentTimestamp Outcome.loss,
                   gamepigeonFlag := false }
      else
        { st1 with wins := st1.wins + 1,
                   timestamped := st1.timestamped ++ tsEntry st1.currentTimestamp Outcome.win,
                   gamepigeonFlag := false }
    else if lineAt L i = "Draw!" then
      { st1 with draws := st1.draws + 1,
                 timestamped := st1.timestamped ++ tsEntry st1.currentTimestamp Outcome.draw,
                 gamepigeonFlag := false }
    else st1
  else st1

/-- The scan state after processing the first n lines. -/
def parseUpTo (L : List String) (n : Nat) : ParseState :=
  (List.range n).foldl (fun st i => processLine L i st) initState

/-- The scan state after the whole file. -/
def parseLines (L : List String) : ParseState := parseUpTo L L.length

/-- The summary record returned by parse_gamepigeon_results on a
successful read. -/
structure Summary where
  wins : Nat
  losses : Nat
  draws : Nat
  timestamped_results : List (DateTime × Outcome)
deriving DecidableEq

/-- Building the returned dictionary: the counters plus the
timestamped results sorted ascending by timestamp (Python list.sort is
stable; so is insertion sort, hence the two agree elementwise). -/
def summaryOf (L : List String) : Summary :=
  let st := parseLines L
  { wins := st.wins, losses := st.losses, draws := st.draws,
    timestamped_results := List.insertionSort tsLe st.timestamped }

/-- The reading outcomes the try/except of the source distinguishes:
FileNotFoundError, any other exception raised while opening, reading or
decoding, or the materialised lines. -/
inductive ReadError
  | fileNotFound : String → ReadError
  | other : String → ReadError
deriving DecidableEq

/-- parse_gamepigeon_results including its exception handling: on
either error kind the function prints a user-facing message and returns
None; otherwise it returns the summary.  The first component models the
return value, the second the printed error messages. -/
def parse_gamepigeon_results (input : Except ReadError (List String)) :
    Option Summary × List String :=
  match input with
  | Except.error (ReadError.fileNotFound f) => (none, ["Error: File " ++ f ++ " not found."])
  | Except.error (ReadError.other e) => (none, ["Error: " ++ e])
  | Except.ok lines => (some (summaryOf lines), [])

/-- total_games of main: the sum of the three counters. -/
def total_games (s : Summary) : Nat := s.wins + s.losses + s.draws

/-- Win percentage as computed in main (exact rational arithmetic in
place of floats; the guard is the conditional expression of the
source). -/
def win_percentage (s : Summary) : ℚ :=
  if total_games s > 0 then (s.wins : ℚ) / (total_games s : ℚ) * 100 else 0

/-- Loss percentage as computed in main. -/
def loss_percentage (s : Summary) : ℚ :=
  if total_games s > 0 then (s.losses : ℚ) / (total_games s : ℚ) * 100 else 0

/-- Draw percentage as computed in main. -/
def draw_percentage (s : Summary) : ℚ :=
  if total_games s > 0 then (s.draws : ℚ) / (total_games s : ℚ) * 100 else 0

example :
    summaryOf ["Jan 1, 2024 10:00:00 AM", "Me", "GamePigeon message:", "I won!"] =
      { wins := 1, losses := 0, draws := 0,
        timestamped_results :=
          [({ year := 2024, month := 1, day := 1, hour := 10, minute := 0, second := 0 },
            Outcome.win)] } := by decide

example :
    summaryOf ["Jan 1, 2024 10:00:00 AM", "Alex", "GamePigeon message:", "Draw!"] =
      { wins := 0, losses := 0, draws := 1,
        timestamped_results :=
          [({ year := 2024, month := 1, day := 1, hour := 10, minute := 0, second := 0 },
            Outcome.draw)] } := by decide

theorem parseUpTo_succ (L : List String) (n : Nat) :
    parseUpTo L (n + 1) = processLine L n (parseUpTo L n) := by
  unfold parseUpTo
  rw [List.range_succ, List.foldl_append]
  rfl

/-- The awaiting-result flag right after the timestamp block, as a
function of the line, the index and the incoming flag alone. -/
def flagAfterTs (L : List String) (i : Nat) (b : Bool) : Bool :=
  if (tsGroups (lineAt L i)).isSome && decide (i + 1 < L.length) then false else b

/-- The current timestamp right after the timestamp block, as a
function of the line, the index and the incoming timestamp alone. -/
def tsAfter (L : List String) (i : Nat) (t : Option DateTime) : Option DateTime :=
  match tsGroups (lineAt L i) with
  | some g => if i + 1 < L.length then strptimeBoth g else t
  | none => t

/-- Whether the line is one of the three result markers. -/
def isMarker (s : String) : Bool := s = "I won!" || s = "You Won!" || s = "Draw!"

/-- Whether iteration i records a result: the awaiting-result flag
still holds after the timestamp block, the index is positive, and the
line is a result marker. -/
def markerFired (L : List String) (i : Nat) (b : Bool) : Bool :=
  flagAfterTs L i b && decide (0 < i) && isMarker (lineAt L i)

theorem tsUpdate_wins (L : List String) (i : Nat) (st : ParseState) :
    (tsUpdate L i st).wins = st.wins := by
  unfold tsUpdate
  cases tsGroups (lineAt L i) with
  | none => rfl
  | some g => by_cases h : i + 1 < L.length <;> simp [h]

theorem tsUpdate_losses (L : List String) (i : Nat) (st : ParseState) :
    (tsUpdate L i st).losses = st.losses := by
  unfold tsUpdate
  cases tsGroups (lineAt L i) with
  | none => rfl
  | some g => by_cases h : i + 1 < L.length <;> simp [h]

theorem tsUpdate_draws (L : List String) (i : Nat) (st : ParseState) :
    (tsUpdate L i st).draws = st.draws := by
  unfold tsUpdate
  cases tsGroups (lineAt L i) with
  | none => rfl
  | some g => by_cases h : i + 1 < L.length <;> simp [h]

theorem tsUpdate_timestamped (L : List String) (i : Nat) (st : ParseState) :
    (tsUpdate L i st).timestamped = st.timestamped := by
  unfold tsUpdate
  cases tsGroups (lineAt L i) with
  | none => rfl
  | some g => by_cases h : i + 1 < L.length <;> simp [h]

theorem tsUpdate_flag (L : List String) (i : Nat) (st : ParseState) :
    (tsUpdate L i st).gamepigeonFlag = flagAfterTs L i st.gamepigeonFlag := by
  unfold tsUpdate flagAfterTs
  cases tsGroups (lineAt L i) with
  | none => simp
  | some g => by_cases h : i + 1 < L.length <;> simp [h]

theorem tsUpdate_ts (L : List String) (i : Nat) (st : ParseState) :
    (tsUpdate L i st).currentTimestamp = tsAfter L i st.currentTimestamp := by
  unfold tsUpdate tsAfter
  cases tsGroups (lineAt L i) with
  | none => rfl
  | some g => by_cases h : i + 1 < L.length <;> simp [h]

theorem tsUpdate_sender (L : List String) (i : Nat) (st : ParseState) :
    (tsUpdate L i st).currentSender =
      (if (tsGroups (lineAt L i)).isSome && decide (i + 1 < L.length) then
        some (lineAt L (i + 1))
      else st.currentSender) := by
  unfold tsUpdate
  cases tsGroups (lineAt L i) with
  | none => simp
  | some g => by_cases h : i + 1 < L.length <;> simp [h]

/-- Total of the three counters of a scan state. -/
def totalOf (st : ParseState) : Nat := st.wins + st.losses + st.draws

theorem isMarker_gp : isMarker "GamePigeon message:" = false := by decide

theorem isMarker_iwon : isMarker "I won!" = true := by decide

theorem isMarker_youwon : isMarker "You Won!" = true := by decide

theorem isMarker_draw : isMarker "Draw!" = true := by decide

theorem processLine_ts (L : List String) (i : Nat) (st : ParseState) :
    (processLine L i st).currentTimestamp = tsAfter L i st.currentTimestamp := by
  unfold processLine
  by_cases hg : lineAt L i = "GamePigeon message:" <;>
  by_cases hf : ((tsUpdate L i st).gamepigeonFlag && decide (0 < i)) = true <;>
  by_cases h1 : lineAt L i = "I won!" <;>
  by_cases h2 : lineAt L i = "You Won!" <;>
  by_cases h3 : lineAt L i = "Draw!" <;>
  by_cases hs : (tsUpdate L i st).currentSender = some "Me" <;>
  simp [hg, hf, h1, h2, h3, hs, tsUpdate_ts]

theorem processLine_sender (L : List String) (i : Nat) (st : ParseState) :
    (processLine L i st).currentSender = (tsUpdate L i st).currentSender := by
  unfold processLine
  by_cases hg : lineAt L i = "GamePigeon message:" <;>
  by_cases hf : ((tsUpdate L i st).gamepigeonFlag && decide (0 < i)) = true <;>
  by_cases h1 : lineAt L i = "I won!" <;>
  by_cases h2 : lineAt L i = "You Won!" <;>
  by_cases h3 : lineAt L i = "Draw!" <;>
  by_cases hs : (tsUpdate L i st).currentSender = some "Me" <;>
  simp [hg, hf, h1, h2, h3, hs]

theorem processLine_total (L : List String) (i : Nat) (st : ParseState) :
    totalOf (processLine L i st) =
      totalOf st + (if markerFired L i st.gamepigeonFlag = true then 1 else 0) := by
  unfold processLine markerFired totalOf
  rw [← tsUpdate_flag]
  by_cases hg : lineAt L i = "GamePigeon message:" <;>
  by_cases hf : ((tsUpdate L i st).gamepigeonFlag && decide (0 < i)) = true <;>
  by_cases h1 : lineAt L i = "I won!" <;>
  by_cases h2 : lineAt L i = "You Won!" <;>
  by_cases h3 : lineAt L i = "Draw!" <;>
  by_cases hs : (tsUpdate L i st).currentSender = some "Me" <;>
  simp [hg, hf, h1, h2, h3, hs, isMarker, tsUpdate_wins, tsUpdate_losses, tsUpdate_draws] <;>
  omega

/-- The awaiting-result flag after a whole iteration, as a function of
the line, the index and the incoming flag alone. -/
def stepFlag (L : List String) (i : Nat) (b : Bool) : Bool :=
  if lineAt L i = "GamePigeon message:" then true
  else if markerFired L i b then false
  else flagAfterTs L i b

theorem processLine_flag (L : List String) (i : Nat) (st : ParseState) :
    (processLine L i st).gamepigeonFlag = stepFlag L i st.gamepigeonFlag := by
  unfold processLine stepFlag markerFired
  rw [← tsUpdate_flag]
  by_cases hg : lineAt L i = "GamePigeon message:" <;>
  by_cases hf : ((tsUpdate L i st).gamepigeonFlag && decide (0 < i)) = true <;>
  by_cases h1 : lineAt L i = "I won!" <;>
  by_cases h2 : lineAt L i = "You Won!" <;>
  by_cases h3 : lineAt L i = "Draw!" <;>
  by_cases hs : (tsUpdate L i st).currentSender = some "Me" <;>
  simp [hg, hf, h1, h2, h3, hs, isMarker]

theorem tsEntry_length (t : Option DateTime) (o : Outcome) :
    (tsEntry t o).length = if t.isSome then 1 else 0 := by
  cases t <;> rfl

theorem processLine_len (L : List String) (i : Nat) (st : ParseState) :
    (processLine L i st).timestamped.length =
      st.timestamped.length +
        (if (markerFired L i st.gamepigeonFlag &&
             (tsAfter L i st.currentTimestamp).isSome) = true then 1 else 0) := by
  unfold processLine markerFired
  rw [← tsUpdate_flag, ← tsUpdate_ts]
  by_cases hg : lineAt L i = "GamePigeon message:" <;>
  by_cases hf : ((tsUpdate L i st).gamepigeonFlag && decide (0 < i)) = true <;>
  by_cases h1 : lineAt L i = "I won!" <;>
  by_cases h2 : lineAt L i = "You Won!" <;>
  by_cases h3 : lineAt L i = "Draw!" <;>
  by_cases hs : (tsUpdate L i st).currentSender = some "Me" <;>
  by_cases ht : ((tsUpdate L i st).currentTimestamp).isSome = true <;>
  simp [hg, hf, h1, h2, h3, hs, ht, isMarker, tsEntry_length, tsUpdate_timestamped]

/-- Reduced scan tracking only the awaiting-result flag and the number
of result markers matched while it was set.  It inspects only the
regex match and the literal markers, never the strptime outcome, which
expresses that the count is independent of timestamp parseability. -/
def flagCountUpTo (L : List String) : Nat → Bool × Nat
  | 0 => (false, 0)
  | n + 1 =>
    let p := flagCountUpTo L n
    (stepFlag L n p.1, p.2 + (if markerFired L n p.1 then 1 else 0))

/-- Number of result-marker lines matched while the awaiting-result
flag was set, over the whole input. -/
def markerMatchCount (L : List String) : Nat := (flagCountUpTo L L.length).2

theorem parseUpTo_flagCount (L : List String) (n : Nat) :
    (parseUpTo L n).gamepigeonFlag = (flagCountUpTo L n).1 ∧
      totalOf (parseUpTo L n) = (flagCountUpTo L n).2 := by
  induction n with
  | zero => exact ⟨rfl, rfl⟩
  | succ n ih =>
    rw [parseUpTo_succ]
    refine ⟨?_, ?_⟩
    · rw [processLine_flag, ih.1]; rfl
    · rw [processLine_total, ih.2, ih.1]; rfl

/-- Reduced scan additionally tracking the current timestamp and the
number of result markers matched while a parsed timestamp was
present. -/
def tsCountUpTo (L : List String) : Nat → Bool × Option DateTime × Nat
  | 0 => (false, none, 0)
  | n + 1 =>
    let p := tsCountUpTo L n
    (stepFlag L n p.1, tsAfter L n p.2.1,
      p.2.2 + (if (markerFired L n p.1 && (tsAfter L n p.2.1).isSome) = true then 1 else 0))

/-- Number of result markers matched while a successfully parsed
timestamp was current, over the whole input. -/
def tsMarkerCount (L : List String) : Nat := (tsCountUpTo L L.length).2.2

theorem parseUpTo_tsCount (L : List String) (n : Nat) :
    (parseUpTo L n).gamepigeonFlag = (tsCountUpTo L n).1 ∧
      (parseUpTo L n).currentTimestamp = (tsCountUpTo L n).2.1 ∧
      (parseUpTo L n).timestamped.length = (tsCountUpTo L n).2.2 := by
  induction n with
  | zero => exact ⟨rfl, rfl, rfl⟩
  | succ n ih =>
    rw [parseUpTo_succ]
    refine ⟨?_, ?_, ?_⟩
    · rw [processLine_flag, ih.1]; rfl
    · rw [processLine_ts, ih.2.1]; rfl
    · rw [processLine_len, ih.2.2, ih.1, ih.2.1]; rfl

theorem parseUpTo_len_le_total (L : List String) (n : Nat) :
    (parseUpTo L n).timestamped.length ≤ totalOf (parseUpTo L n) := by
  induction n with
  | zero => exact Nat.le_refl 0
  | succ n ih =>
    rw [parseUpTo_succ, processLine_len, processLine_total]
    by_cases hm : markerFired L n (parseUpTo L n).gamepigeonFlag = true <;>
    by_cases ht : (tsAfter L n (parseUpTo L n).currentTimestamp).isSome = true <;>
    simp [hm, ht] <;> omega

/-- C2: for every successfully read input, the reported total games
equals wins + losses + draws, and this sum equals the number of
result-marker lines matched while the awaiting-result flag was set
(the reduced count inspects only the regex match, never the strptime
outcome, so the equality holds regardless of timestamp
parseability). -/
theorem claim_C2 (L : List String) :
    total_games (summaryOf L) =
        (summaryOf L).wins + (summaryOf L).losses + (summaryOf L).draws ∧
      (summaryOf L).wins + (summaryOf L).losses + (summaryOf L).draws = markerMatchCount L := by
  exact ⟨rfl, (parseUpTo_flagCount L L.length).2⟩

/-- C6: for every parsed input, the returned timestamped-outcome
sequence is sorted non-decreasing by timestamp, and its length equals
the number of result markers matched while a successfully parsed
timestamp was current — so markers with an absent timestamp are
counted in the aggregates (claim C2) but contribute no sequence
entry. -/
theorem claim_C6 (L : List String) :
    List.Sorted tsLe (summaryOf L).timestamped_results ∧
      (summaryOf L).timestamped_results.length = tsMarkerCount L := by
  constructor
  · exact List.sorted_insertionSort tsLe _
  · have h : (summaryOf L).timestamped_results =
        List.insertionSort tsLe (parseLines L).timestamped := rfl
    rw [h, List.length_insertionSort]
    exact (parseUpTo_tsCount L L.length).2.2

/-- C10: for every successfully read input, the timestamped-outcome
sequence has at most wins + losses + draws entries: each matched
marker adds one to exactly one counter and at most one entry to the
sequence, and no other step touches either. -/
theorem claim_C10 (L : List String) :
    (summaryOf L).timestamped_results.length ≤ total_games (summaryOf L) := by
  have h : (summaryOf L).timestamped_results =
      List.insertionSort tsLe (parseLines L).timestamped := rfl
  rw [h, List.length_insertionSort]
  exact parseUpTo_len_le_total L L.length

/-- C3: on a missing file and on any other read or decode error alike,
the top-level handler returns no summary at all and emits a user-facing
error message; neither error kind escapes. -/
theorem claim_C3 (e : ReadError) :
    (parse_gamepigeon_results (Except.error e)).1 = none ∧
      (parse_gamepigeon_results (Except.error e)).2 ≠ [] := by
  cases e <;> simp [parse_gamepigeon_results]

/-- C8: the reporting percentages are all 0 when the total is zero (the
guard prevents the division), and otherwise are count over total times
100; in the guarded case the three percentages genuinely partition 100,
which requires the divisor to be nonzero. -/
theorem claim_C8 (s : Summary) :
    (total_games s = 0 →
        win_percentage s = 0 ∧ loss_percentage s = 0 ∧ draw_percentage s = 0) ∧
      (0 < total_games s →
        win_percentage s = (s.wins : ℚ) / (total_games s : ℚ) * 100 ∧
          loss_percentage s = (s.losses : ℚ) / (total_games s : ℚ) * 100 ∧
          draw_percentage s = (s.draws : ℚ) / (total_games s : ℚ) * 100 ∧
          win_percentage s + loss_percentage s + draw_percentage s = 100) := by
  constructor
  · intro h
    have h0 : ¬ total_games s > 0 := by omega
    exact ⟨if_neg h0, if_neg h0, if_neg h0⟩
  · intro h
    have hw : win_percentage s = (s.wins : ℚ) / (total_games s : ℚ) * 100 := if_pos h
    have hl : loss_percentage s = (s.losses : ℚ) / (total_games s : ℚ) * 100 := if_pos h
    have hd : draw_percentage s = (s.draws : ℚ) / (total_games s : ℚ) * 100 := if_pos h
    refine ⟨hw, hl, hd, ?_⟩
    have ht : (total_games s : ℚ) ≠ 0 := by
      have : total_games s ≠ 0 := by omega
      exact_mod_cast this
    have hsum : (s.wins : ℚ) + (s.losses : ℚ) + (s.draws : ℚ) = (total_games s : ℚ) := by
      unfold total_games
      push_cast
      ring
    rw [hw, hl, hd]
    field_simp
    linarith [hsum]

/-- The outcome the claims assign to a result-marker line given the
recorded sender: with sender Me the marker text is read literally, with
any other (or no) sender the polarity of wins and losses is
inverted, and Draw is a draw regardless. -/
def specOutcome (sender : Option String) (line : String) : Outcome :=
  if line = "Draw!" then Outcome.draw
  else if sender = some "Me" then
    (if line = "I won!" then Outcome.win else Outcome.loss)
  else
    (if line = "I won!" then Outcome.loss else Outcome.win)

/-- The counter of a scan state selected by outcome. -/
def countOf (st : ParseState) : Outcome → Nat
  | Outcome.win => st.wins
  | Outcome.loss => st.losses
  | Outcome.draw => st.draws

theorem marker_step (L : List String) (i : Nat) (st : ParseState)
    (hi : 0 < i) (hflag : st.gamepigeonFlag = true)
    (hm : isMarker (lineAt L i) = true) :
    countOf (processLine L i st) (specOutcome st.currentSender (lineAt L i)) =
        countOf st (specOutcome st.currentSender (lineAt L i)) + 1 ∧
      (∀ o, o ≠ specOutcome st.currentSender (lineAt L i) →
        countOf (processLine L i st) o = countOf st o) ∧
      (processLine L i st).timestamped =
        st.timestamped ++ tsEntry st.currentTimestamp
          (specOutcome st.currentSender (lineAt L i)) := by
  have hm2 : (lineAt L i = "I won!" ∨ lineAt L i = "You Won!") ∨ lineAt L i = "Draw!" := by
    simpa [isMarker] using hm
  rw [or_assoc] at hm2
  rcases hm2 with hc | hc | hc <;>
  · have hts : tsGroups (lineAt L i) = none := by rw [hc]; decide
    have hT : tsUpdate L i st = st := by unfold tsUpdate; rw [hts]
    by_cases hs : st.currentSender = some "Me" <;>
    · refine ⟨?_, ?_, ?_⟩ <;>
      first
      | (intro o ho
         cases o <;>
         simp_all [processLine, specOutcome, countOf, hT, hc, hflag, hs, hi])
      | simp_all [processLine, specOutcome, countOf, hT, hc, hflag, hs, hi]

/-- C1: the inversion law at a result-marker iteration: with the
awaiting-result flag set, a marker line increments exactly the counter
of the outcome assigned by the claim (Me with I-won is a win, Me with
You-Won is a loss, any other sender inverted, Draw always a draw),
leaves the other counters unchanged, and appends — exactly when a
timestamp is present — one entry carrying that same outcome. -/
theorem claim_C1 (L : List String) (i : Nat) (st : ParseState)
    (hi : 0 < i) (hflag : st.gamepigeonFlag = true)
    (hm : isMarker (lineAt L i) = true) :
    countOf (processLine L i st) (specOutcome st.currentSender (lineAt L i)) =
        countOf st (specOutcome st.currentSender (lineAt L i)) + 1 ∧
      (∀ o, o ≠ specOutcome st.currentSender (lineAt L i) →
        countOf (processLine L i st) o = countOf st o) ∧
      (processLine L i st).timestamped =
        st.timestamped ++ tsEntry st.currentTimestamp
          (specOutcome st.currentSender (lineAt L i)) :=
  marker_step L i st hi hflag hm

/-- Witness for C1 at a concrete transcript: sender Me, marker
I-won, timestamp present — the win counter goes from 0 to 1 and the
appended entry is a win. -/
theorem claim_C1_witness :
    (0 : Nat) < 3 ∧
      (parseUpTo ["Jan 1, 2024 10:00:00 AM", "Me", "GamePigeon message:", "I won!"] 3).gamepigeonFlag = true ∧
      isMarker (lineAt ["Jan 1, 2024 10:00:00 AM", "Me", "GamePigeon message:", "I won!"] 3) = true ∧
      countOf
          (processLine ["Jan 1, 2024 10:00:00 AM", "Me", "GamePigeon message:", "I won!"] 3
            (parseUpTo ["Jan 1, 2024 10:00:00 AM", "Me", "GamePigeon message:", "I won!"] 3))
          (specOutcome
            (parseUpTo ["Jan 1, 2024 10:00:00 AM", "Me", "GamePigeon message:", "I won!"] 3).currentSender
            (lineAt ["Jan 1, 2024 10:00:00 AM", "Me", "GamePigeon message:", "I won!"] 3)) =
        countOf (parseUpTo ["Jan 1, 2024 10:00:00 AM", "Me", "GamePigeon message:", "I won!"] 3)
          (specOutcome
            (parseUpTo ["Jan 1, 2024 10:00:00 AM", "Me", "GamePigeon message:", "I won!"] 3).currentSender
            (lineAt ["Jan 1, 2024 10:00:00 AM", "Me", "GamePigeon message:", "I won!"] 3)) + 1 :=
  ⟨by decide, by decide, by decide,
    (claim_C1 ["Jan 1, 2024 10:00:00 AM", "Me", "GamePigeon message:", "I won!"] 3
      (parseUpTo ["Jan 1, 2024 10:00:00 AM", "Me", "GamePigeon message:", "I won!"] 3)
      (by decide) (by decide) (by decide)).1⟩

theorem noTs_invariant (L : List String) :
    ∀ n, (∀ j, j < n → tsGroups (lineAt L j) = none) →
      (parseUpTo L n).currentSender = none ∧ (parseUpTo L n).currentTimestamp = none := by
  intro n
  induction n with
  | zero => intro _; exact ⟨rfl, rfl⟩
  | succ n ih =>
    intro h
    have hpre := ih (fun j hj => h j (Nat.lt_succ_of_lt hj))
    have hn : tsGroups (lineAt L n) = none := h n (Nat.lt_succ_self n)
    rw [parseUpTo_succ, processLine_sender, processLine_ts, tsUpdate_sender]
    constructor
    · rw [hn]
      simpa using hpre.1
    · unfold tsAfter
      rw [hn]
      exact hpre.2

/-- C9: when a result marker is matched while the awaiting-result flag
is set but no line so far matched the timestamp pattern, the sender and
the timestamp are still unset; the unset sender is treated like any
sender other than Me (I-won counts a loss, You-Won a win, Draw a
draw), and no entry joins the timestamped sequence. -/
theorem claim_C9 (L : List String) (i : Nat)
    (hno : ∀ j, j < i → tsGroups (lineAt L j) = none)
    (hflag : (parseUpTo L i).gamepigeonFlag = true)
    (hi : 0 < i) (hm : isMarker (lineAt L i) = true) :
    (parseUpTo L i).currentSender = none ∧
      (parseUpTo L i).currentTimestamp = none ∧
      (lineAt L i = "I won!" →
        (parseUpTo L (i + 1)).losses = (parseUpTo L i).losses + 1) ∧
      (lineAt L i = "You Won!" →
        (parseUpTo L (i + 1)).wins = (parseUpTo L i).wins + 1) ∧
      (lineAt L i = "Draw!" →
        (parseUpTo L (i + 1)).draws = (parseUpTo L i).draws + 1) ∧
      (parseUpTo L (i + 1)).timestamped = (parseUpTo L i).timestamped := by
  obtain ⟨hsnd, hts⟩ := noTs_invariant L i hno
  have hstep := marker_step L i (parseUpTo L i) hi hflag hm
  rw [hsnd, hts] at hstep
  rw [parseUpTo_succ]
  refine ⟨hsnd, hts, ?_, ?_, ?_, ?_⟩
  · intro hc
    have ho : specOutcome none (lineAt L i) = Outcome.loss := by
      rw [hc]; decide
    have := hstep.1
    rw [ho] at this
    simpa [countOf] using this
  · intro hc
    have ho : specOutcome none (lineAt L i) = Outcome.win := by
      rw [hc]; decide
    have := hstep.1
    rw [ho] at this
    simpa [countOf] using this
  · intro hc
    have ho : specOutcome none (lineAt L i) = Outcome.draw := by
      rw [hc]; decide
    have := hstep.1
    rw [ho] at this
    simpa [countOf] using this
  · have := hstep.2.2
    simpa [tsEntry] using this

/-- Witness for C9 at a concrete transcript with no timestamp line: a
marker I-won with no sender ever recorded counts a loss and adds no
timestamped entry. -/
theorem claim_C9_witness :
    (parseUpTo ["GamePigeon message:", "I won!"] 1).gamepigeonFlag = true ∧
      isMarker (lineAt ["GamePigeon message:", "I won!"] 1) = true ∧
      (parseUpTo ["GamePigeon message:", "I won!"] 2).losses =
        (parseUpTo ["GamePigeon message:", "I won!"] 1).losses + 1 :=
  ⟨by decide, by decide,
    (claim_C9 ["GamePigeon message:", "I won!"] 1
        (by intro j hj; interval_cases j; decide) (by decide) (by decide) (by decide)).2.2.1
      (by decide)⟩

/-- Refutation of C4 as stated: a valid timestamp line at the last
index of the input.  The claim predicts the timestamp is parsed and
the awaiting-result flag reset; the code skips the whole block, so
after the scan the flag is still set and no timestamp was recorded. -/
theorem claim_C4_counterexample :
    isTimestampLine (lineAt ["GamePigeon message:", "Jan 1, 2024 10:00:00 AM"] 1) = true ∧
      ¬ ((parseUpTo ["GamePigeon message:", "Jan 1, 2024 10:00:00 AM"] 2).gamepigeonFlag =
          false ∧
        (parseUpTo ["GamePigeon message:", "Jan 1, 2024 10:00:00 AM"] 2).currentTimestamp ≠
          none) := by
  decide

/-- C4 as amended: when a line matches the timestamp pattern but index
i+1 is out of range, the entire timestamp block is skipped — no
timestamp parsing, no sender update, and no reset of the
awaiting-result flag; the scan state is unchanged. -/
theorem claim_C4_amended (L : List String) (i : Nat) (st : ParseState)
    (hmatch : (tsGroups (lineAt L i)).isSome = true)
    (hrange : ¬ (i + 1 < L.length)) :
    processLine L i st = st := by
  have hg : lineAt L i ≠ "GamePigeon message:" := by
    intro h; rw [h] at hmatch; exact absurd hmatch (by decide)
  have h1 : lineAt L i ≠ "I won!" := by
    intro h; rw [h] at hmatch; exact absurd hmatch (by decide)
  have h2 : lineAt L i ≠ "You Won!" := by
    intro h; rw [h] at hmatch; exact absurd hmatch (by decide)
  have h3 : lineAt L i ≠ "Draw!" := by
    intro h; rw [h] at hmatch; exact absurd hmatch (by decide)
  have hT : tsUpdate L i st = st := by
    unfold tsUpdate
    cases hc : tsGroups (lineAt L i) with
    | none => rfl
    | some g => simp [hrange]
  unfold processLine
  simp [hT, hg, h1, h2, h3]

/-- Witness for the amended C4: a one-line input whose only line is a
valid timestamp; the scan state (with the awaiting-result flag set, to
make the non-reset observable) passes through unchanged. -/
theorem claim_C4_amended_witness :
    (tsGroups (lineAt ["Jan 1, 2024 10:00:00 AM"] 0)).isSome = true ∧
      processLine ["Jan 1, 2024 10:00:00 AM"] 0
          { wins := 0, losses := 0, draws := 0, timestamped := [], currentSender := none,
            gamepigeonFlag := true, currentTimestamp := none } =
        { wins := 0, losses := 0, draws := 0, timestamped := [], currentSender := none,
          gamepigeonFlag := true, currentTimestamp := none } :=
  ⟨by decide,
    claim_C4_amended ["Jan 1, 2024 10:00:00 AM"] 0 _ (by decide) (by decide)⟩

/-- Default date-time for list indexing (indices are always in range
in the plotting code, so the default is never returned). -/
def dtDefault : DateTime :=
  { year := 1, month := 1, day := 1, hour := 0, minute := 0, second := 0 }

/-- The cumulative-count loop of the plotting function: one running
(wins, losses, draws) triple appended per outcome. -/
def cumCounts (w l d : Nat) : List Outcome → List (Nat × Nat × Nat)
  | [] => []
  | r :: rs =>
    let w1 := if r = Outcome.win then w + 1 else w
    let l1 := if r = Outcome.loss then l + 1 else l
    let d1 := if r = Outcome.draw then d + 1 else d
    (w1, l1, d1) :: cumCounts w1 l1 d1 rs

/-- The cumulative-count series, starting from zero counts. -/
def cumulativeCounts (rs : List Outcome) : List (Nat × Nat × Nat) := cumCounts 0 0 0 rs

/-- The sliding-window win-percentage series of the plotting function:
window size min(5, number of outcomes); when the outcome count reaches
the window size, one point per window position, pairing the timestamp
of the window's last element with wins-in-window over window size
times 100 (exact rationals in place of floats). -/
def windowSeries (entries : List (DateTime × Outcome)) : List (DateTime × ℚ) :=
  let result_types := entries.map Prod.snd
  let timestamps := entries.map Prod.fst
  let window_size := min 5 result_types.length
  if result_types.length ≥ window_size then
    (List.range (result_types.length - window_size + 1)).map (fun i =>
      let window := (result_types.drop i).take window_size
      let win_count := window.countP (fun r => r == Outcome.win)
      (timestamps.getD (i + window_size - 1) dtDefault,
        ((win_count : ℚ) / (window_size : ℚ)) * 100))
  else []

/-- Whether the second subplot shows the explanatory text in place of
the win-percentage plot (the else branch of the window guard). -/
def placeholderShown (entries : List (DateTime × Outcome)) : Bool :=
  !(decide ((entries.map Prod.snd).length ≥ min 5 (entries.map Prod.snd).length))

/-- plot_results_over_time: nothing is plotted for an empty sequence
(early return); otherwise the cumulative series, the windowed series
and the placeholder flag describe the two subplots. -/
def plot_results_over_time (res : Summary) :
    Option (List (Nat × Nat × Nat) × List (DateTime × ℚ) × Bool) :=
  if res.timestamped_results = [] then none
  else some (cumulativeCounts (res.timestamped_results.map Prod.snd),
    windowSeries res.timestamped_results,
    placeholderShown res.timestamped_results)

theorem cumCounts_length (w l d : Nat) (rs : List Outcome) :
    (cumCounts w l d rs).length = rs.length := by
  induction rs generalizing w l d with
  | nil => rfl
  | cons r rs ih => simp [cumCounts, ih]

/-- Refutation of C7 as stated: a sequence of three outcomes — more
than one and fewer than five.  The claim predicts an empty windowed
series and a shown placeholder; the code computes one window (of size
three) and never shows the placeholder. -/
theorem claim_C7_counterexample :
    (1 : Nat) ≤
        ([((⟨2024, 1, 1, 10, 0, 0⟩ : DateTime), Outcome.win),
          ((⟨2024, 1, 2, 10, 0, 0⟩ : DateTime), Outcome.loss),
          ((⟨2024, 1, 3, 10, 0, 0⟩ : DateTime), Outcome.win)]).length ∧
      ([((⟨2024, 1, 1, 10, 0, 0⟩ : DateTime), Outcome.win),
        ((⟨2024, 1, 2, 10, 0, 0⟩ : DateTime), Outcome.loss),
        ((⟨2024, 1, 3, 10, 0, 0⟩ : DateTime), Outcome.win)]).length < 5 ∧
      (windowSeries
          [((⟨2024, 1, 1, 10, 0, 0⟩ : DateTime), Outcome.win),
            ((⟨2024, 1, 2, 10, 0, 0⟩ : DateTime), Outcome.loss),
            ((⟨2024, 1, 3, 10, 0, 0⟩ : DateTime), Outcome.win)]).length = 1 ∧
      placeholderShown
          [((⟨2024, 1, 1, 10, 0, 0⟩ : DateTime), Outcome.win),
            ((⟨2024, 1, 2, 10, 0, 0⟩ : DateTime), Outcome.loss),
            ((⟨2024, 1, 3, 10, 0, 0⟩ : DateTime), Outcome.win)] = false := by
  refine ⟨by decide, by decide, ?_, by decide⟩
  rfl

/-- C7 as amended: for every nonempty timestamped-outcome sequence the
window guard passes (window size min(5, n) never exceeds n), so the
placeholder is never shown and the windowed series has exactly
n − min(5, n) + 1 points — in particular exactly one point, covering
the whole sequence, when n is below five; the cumulative series has
one point per outcome, and each window point pairs the timestamp of
the window's last element with wins-in-window over window size times
100. -/
theorem claim_C7_amended (entries : List (DateTime × Outcome)) (h : entries ≠ []) :
    (windowSeries entries).length = entries.length - min 5 entries.length + 1 ∧
      (entries.length < 5 → (windowSeries entries).length = 1) ∧
      placeholderShown entries = false ∧
      (cumulativeCounts (entries.map Prod.snd)).length = entries.length ∧
      (∀ i, i < (windowSeries entries).length →
        (windowSeries entries).getD i (dtDefault, 0) =
          ((entries.map Prod.fst).getD (i + min 5 entries.length - 1) dtDefault,
            (((((entries.map Prod.snd).drop i).take (min 5 entries.length)).countP
                (fun r => r == Outcome.win) : ℚ) / ((min 5 entries.length : Nat) : ℚ)) *
              100)) := by
  have hmin : min 5 entries.length ≤ entries.length := Nat.min_le_right _ _
  have hlen :
      (windowSeries entries).length = entries.length - min 5 entries.length + 1 := by
    unfold windowSeries
    rw [if_pos (by simpa using hmin)]
    simp
  refine ⟨hlen, ?_, ?_, ?_, ?_⟩
  · intro h5
    rw [hlen, Nat.min_eq_right (Nat.le_of_lt h5), Nat.sub_self]
  · unfold placeholderShown
    simp [hmin]
  · unfold cumulativeCounts
    rw [cumCounts_length, List.length_map]
  · intro i hi
    rw [hlen] at hi
    unfold windowSeries
    rw [if_pos (by simpa using hmin)]
    rw [List.getD_eq_getElem _ _ (by simpa using hi)]
    rw [List.getElem_map, List.getElem_range]
    simp

/-- Witness for the amended C7 at a three-outcome sequence: a single
window point and no placeholder. -/
theorem claim_C7_amended_witness :
    (windowSeries
        [((⟨2024, 2, 1, 9, 0, 0⟩ : DateTime), Outcome.win),
          ((⟨2024, 2, 2, 9, 0, 0⟩ : DateTime), Outcome.draw),
          ((⟨2024, 2, 3, 9, 0, 0⟩ : DateTime), Outcome.loss)]).length = 1 ∧
      placeholderShown
        [((⟨2024, 2, 1, 9, 0, 0⟩ : DateTime), Outcome.win),
          ((⟨2024, 2, 2, 9, 0, 0⟩ : DateTime), Outcome.draw),
          ((⟨2024, 2, 3, 9, 0, 0⟩ : DateTime), Outcome.loss)] = false :=
  ⟨(claim_C7_amended
        [((⟨2024, 2, 1, 9, 0, 0⟩ : DateTime), Outcome.win),
          ((⟨2024, 2, 2, 9, 0, 0⟩ : DateTime), Outcome.draw),
          ((⟨2024, 2, 3, 9, 0, 0⟩ : DateTime), Outcome.loss)] (by decide)).2.1 (by decide),
    (claim_C7_amended
        [((⟨2024, 2, 1, 9, 0, 0⟩ : DateTime), Outcome.win),
          ((⟨2024, 2, 2, 9, 0, 0⟩ : DateTime), Outcome.draw),
          ((⟨2024, 2, 3, 9, 0, 0⟩ : DateTime), Outcome.loss)] (by decide)).2.2.1⟩

/-- Token check of the spec grammar: the three leading characters form
one of the twelve month or seven weekday three-letter abbreviations. -/
def specTok (a b c : Char) : Bool :=
  (a = 'J' && (b = 'a' && c = 'n')) ||
  ((a = 'F' && (b = 'e' && c = 'b')) ||
  ((a = 'M' && (b = 'a' && c = 'r')) ||
  ((a = 'A' && (b = 'p' && c = 'r')) ||
  ((a = 'M' && (b = 'a' && c = 'y')) ||
  ((a = 'J' && (b = 'u' && c = 'n')) ||
  ((a = 'J' && (b = 'u' && c = 'l')) ||
  ((a = 'A' && (b = 'u' && c = 'g')) ||
  ((a = 'S' && (b = 'e' && c = 'p')) ||
  ((a = 'O' && (b = 'c' && c = 't')) ||
  ((a = 'N' && (b = 'o' && c = 'v')) ||
  ((a = 'D' && (b = 'e' && c = 'c')) ||
  ((a = 'M' && (b = 'o' && c = 'n')) ||
  ((a = 'T' && (b = 'u' && c = 'e')) ||
  ((a = 'W' && (b = 'e' && c = 'd')) ||
  ((a = 'T' && (b = 'h' && c = 'u')) ||
  ((a = 'F' && (b = 'r' && c = 'i')) ||
  ((a = 'S' && (b = 'a' && c = 't')) ||
  ((a = 'S' && (b = 'u' && c = 'n'))))))))))))))))))))

/-- Date/time separator of the spec grammar: exactly one or two
spaces. -/
def specSep : List Char → Option (List Char)
  | c1 :: c2 :: rest =>
      if c1 = ' ' && c2 = ' ' then some rest
      else if c1 = ' ' then some (c2 :: rest)
      else none
  | [c1] => if c1 = ' ' then some [] else none
  | [] => none

/-- The timestamp line grammar as the specification states it (built
from the spec's words, for comparison with the code's matcher):
three-letter month or weekday abbreviation, space, 1–2 digit day,
comma, space, 4-digit year, exactly one or two spaces, 1–2 digit hour,
colon, 2-digit minute, colon, 2-digit second, space, AM or PM. -/
def specTimestampGrammar (s : String) : Bool :=
  (genTs specTok (fun ch => ch = ' ') specSep s.data).isSome

/-- Refutation of C5 as stated: a line with three spaces between date
and time, a line with a tab there, and a line whose leading token is
the digits 123 are all outside the stated grammar, yet each is treated
as a timestamp line by the code (the first regex accepts any run of
one or more whitespace characters, and word characters include
digits). -/
theorem claim_C5_counterexample :
    specTimestampGrammar "Jan 1, 2024   10:00:00 AM" = false ∧
      isTimestampLine "Jan 1, 2024   10:00:00 AM" = true ∧
      isTimestampLine "Jan 1, 2024\t10:00:00 AM" = true ∧
      specTimestampGrammar "123 1, 2024 1:00:00 AM" = false ∧
      isTimestampLine "123 1, 2024 1:00:00 AM" = true := by
  decide

theorem parse12Sep_head_digit (sep : Char) (r : List Char)
    (h : (parse12Sep sep r).isSome = true) :
    ∃ d t, r = d :: t ∧ d.isDigit = true := by
  rcases r with _ | ⟨d1, r⟩
  · simp [parse12Sep] at h
  refine ⟨d1, r, rfl, ?_⟩
  by_contra hd
  have hd1 : d1.isDigit = false := by simpa using hd
  rcases r with _ | ⟨d2, r⟩
  · simp [parse12Sep] at h
  rcases r with _ | ⟨c, r⟩ <;> simp [parse12Sep, hd1] at h

theorem digit_not_pySpace (c : Char) (hd : c.isDigit = true) : isPySpace c = false := by
  cases hcs : isPySpace c
  · rfl
  · exfalso
    unfold isPySpace at hcs
    simp only [Bool.or_eq_true, decide_eq_true_eq] at hcs
    rcases hcs with ((((rfl | rfl) | rfl) | rfl) | rfl) | rfl <;> exact absurd hd (by decide)

theorem specSep_sub_sepPlus (cs r : List Char) (hs : specSep cs = some r)
    (hr : (parse12Sep ':' r).isSome = true) : sepPlus cs = some r := by
  obtain ⟨d, t, rfl, hd⟩ := parse12Sep_head_digit ':' r hr
  have hds : isPySpace d = false := digit_not_pySpace d hd
  have hspc : isPySpace ' ' = true := by decide
  rcases cs with _ | ⟨c1, cs1⟩
  · simp [specSep] at hs
  rcases cs1 with _ | ⟨c2, cs2⟩
  · by_cases hc1 : c1 = ' '
    · subst hc1
      simp [specSep] at hs
    · simp [specSep, hc1] at hs
  by_cases hc1 : c1 = ' '
  case neg => simp [specSep, hc1] at hs
  subst hc1
  by_cases hc2 : c2 = ' '
  · subst hc2
    simp [specSep] at hs
    subst hs
    simp [sepPlus, List.dropWhile_cons, hds, hspc]
  · simp [specSep, hc2] at hs
    obtain ⟨rfl, rfl⟩ := hs
    simp [sepPlus, List.dropWhile_cons, hds, hspc]

theorem genTs_mono (tc1 tc2 : Char → Char → Char → Bool) (sp1 sp2 : Char → Bool)
    (sep1 sep2 : List Char → Option (List Char))
    (htc : ∀ a b c, tc1 a b c = true → tc2 a b c = true)
    (hsp : ∀ ch, sp1 ch = true → sp2 ch = true)
    (hsep : ∀ cs r, sep1 cs = some r → (parse12Sep ':' r).isSome = true → sep2 cs = some r)
    (cs : List Char) (h : (genTs tc1 sp1 sep1 cs).isSome = true) :
    (genTs tc2 sp2 sep2 cs).isSome = true := by
  rcases cs with _ | ⟨a, cs⟩
  · simp [genTs] at h
  rcases cs with _ | ⟨b, cs⟩
  · simp [genTs] at h
  rcases cs with _ | ⟨c, cs⟩
  · simp [genTs] at h
  rcases cs with _ | ⟨s1, rest⟩
  · simp [genTs] at h
  by_cases h1 : (tc1 a b c && sp1 s1) = true
  case neg => simp [genTs, h1] at h
  cases hps : parse12Sep ',' rest with
  | none => simp [genTs, h1, hps] at h
  | some p =>
  obtain ⟨day, rest1⟩ := p
  rcases rest1 with _ | ⟨s2, r1⟩
  · simp [genTs, h1, hps] at h
  rcases r1 with _ | ⟨y1, r1⟩
  · simp [genTs, h1, hps] at h
  rcases r1 with _ | ⟨y2, r1⟩
  · simp [genTs, h1, hps] at h
  rcases r1 with _ | ⟨y3, r1⟩
  · simp [genTs, h1, hps] at h
  rcases r1 with _ | ⟨y4, rest2⟩
  · simp [genTs, h1, hps] at h
  by_cases h2 : (sp1 s2 && y1.isDigit && y2.isDigit && y3.isDigit && y4.isDigit) = true
  case neg => simp [genTs, h1, hps, h2] at h
  cases hsq : sep1 rest2 with
  | none => simp [genTs, h1, hps, h2, hsq] at h
  | some rest3 =>
  cases hph : parse12Sep ':' rest3 with
  | none => simp [genTs, h1, hps, h2, hsq, hph] at h
  | some q =>
  obtain ⟨hour, rest4⟩ := q
  rcases rest4 with _ | ⟨m1, r2⟩
  · simp [genTs, h1, hps, h2, hsq, hph] at h
  rcases r2 with _ | ⟨m2, r2⟩
  · simp [genTs, h1, hps, h2, hsq, hph] at h
  rcases r2 with _ | ⟨c2, r2⟩
  · simp [genTs, h1, hps, h2, hsq, hph] at h
  rcases r2 with _ | ⟨x1, r2⟩
  · simp [genTs, h1, hps, h2, hsq, hph] at h
  rcases r2 with _ | ⟨x2, r2⟩
  · simp [genTs, h1, hps, h2, hsq, hph] at h
  rcases r2 with _ | ⟨s3, r2⟩
  · simp [genTs, h1, hps, h2, hsq, hph] at h
  rcases r2 with _ | ⟨ap, r2⟩
  · simp [genTs, h1, hps, h2, hsq, hph] at h
  rcases r2 with _ | ⟨em, r2⟩
  · simp [genTs, h1, hps, h2, hsq, hph] at h
  by_cases h3 : (m1.isDigit && m2.isDigit && c2 = ':' && x1.isDigit && x2.isDigit &&
      sp1 s3 && (ap = 'A' || ap = 'P') && em = 'M') = true
  case neg => simp [genTs, h1, hps, h2, hsq, hph, h3] at h
  obtain ⟨h1a, h1b⟩ := (Bool.and_eq_true _ _).mp h1
  have h1x : (tc2 a b c && sp2 s1) = true :=
    (Bool.and_eq_true _ _).mpr ⟨htc a b c h1a, hsp s1 h1b⟩
  have h2x : (sp2 s2 && y1.isDigit && y2.isDigit && y3.isDigit && y4.isDigit) = true := by
    simp only [Bool.and_eq_true] at h2 ⊢
    exact ⟨⟨⟨⟨hsp s2 h2.1.1.1.1, h2.1.1.1.2⟩, h2.1.1.2⟩, h2.1.2⟩, h2.2⟩
  have h3x : (m1.isDigit && m2.isDigit && c2 = ':' && x1.isDigit && x2.isDigit &&
      sp2 s3 && (ap = 'A' || ap = 'P') && em = 'M') = true := by
    simp only [Bool.and_eq_true] at h3 ⊢
    exact ⟨⟨⟨⟨⟨⟨⟨h3.1.1.1.1.1.1.1, h3.1.1.1.1.1.1.2⟩, h3.1.1.1.1.1.2⟩, h3.1.1.1.1.2⟩,
      h3.1.1.1.2⟩, hsp s3 h3.1.1.2⟩, h3.1.2⟩, h3.2⟩
  have hsq2 : sep2 rest2 = some rest3 := hsep rest2 rest3 hsq (by rw [hph]; rfl)
  simp only [genTs, hps, hsq2, hph]
  rw [if_pos h1x, if_pos h2x, if_pos h3x]
  rfl

theorem specTok_sub_codeTok (a b c : Char) (h : specTok a b c = true) :
    codeTok a b c = true := by
  unfold specTok at h
  simp only [Bool.or_eq_true, Bool.and_eq_true, decide_eq_true_eq] at h
  casesm* _ ∨ _
  all_goals casesm* _ ∧ _
  all_goals subst_vars
  all_goals decide

theorem specSp_sub_pySpace (ch : Char) (h : (decide (ch = ' ')) = true) :
    isPySpace ch = true := by
  rw [of_decide_eq_true h]
  decide

/-- C5 as amended: every line fitting the grammar stated by the spec is
indeed treated as a timestamp line, but the acceptance is strictly
wider (see the refutation): the code accepts any run of one or more
whitespace characters, including tabs, between date and time, any word
characters — letters, digits or underscore — in the leading token, and
arbitrary trailing content. -/
theorem claim_C5_amended (s : String) (h : specTimestampGrammar s = true) :
    isTimestampLine s = true := by
  unfold specTimestampGrammar at h
  have hmono :=
    genTs_mono specTok codeTok (fun ch => ch = ' ') isPySpace specSep sepPlus
      specTok_sub_codeTok specSp_sub_pySpace specSep_sub_sepPlus s.data h
  unfold isTimestampLine tsGroups matchTs1
  cases hm : genTs codeTok isPySpace sepPlus s.data with
  | none =>
    rw [hm] at hmono
    simp at hmono
  | some g => simp

/-- Witness for the amended C5: a line in the stated grammar is
accepted by the code matcher. -/
theorem claim_C5_amended_witness :
    specTimestampGrammar "Jan 1, 2024 10:00:00 AM" = true ∧
      isTimestampLine "Jan 1, 2024 10:00:00 AM" = true :=
  ⟨by decide, claim_C5_amended "Jan 1, 2024 10:00:00 AM" (by decide)⟩

/-- Witness for C8 at two concrete summaries: a zero total (all
percentages 0) and a positive total (percentages partition 100). -/
theorem claim_C8_witness :
    win_percentage { wins := 0, losses := 0, draws := 0, timestamped_results := [] } = 0 ∧
      win_percentage { wins := 1, losses := 2, draws := 1, timestamped_results := [] } +
          loss_percentage { wins := 1, losses := 2, draws := 1, timestamped_results := [] } +
          draw_percentage { wins := 1, losses := 2, draws := 1, timestamped_results := [] } =
        100 :=
  ⟨((claim_C8 { wins := 0, losses := 0, draws := 0, timestamped_results := [] }).1
      (by decide)).1,
    ((claim_C8 { wins := 1, losses := 2, draws := 1, timestamped_results := [] }).2
      (by decide)).2.2.2⟩
